import Mathlib

set_option maxRecDepth 100000

/-!
Verification of the completion-coordination subsystem of the llm-survey-app
repository (src/app.py): job runners (avatar, plan), the completion
coordinator `check_and_send_email`, the quota check, and the submission
handler. Python code is shallowly embedded: Python strings are Lean
`String`s manipulated through executable helpers that mirror the exact
Python primitives used by the source (`str.strip`, `str.lower`,
`in`-substring test, `str.split`), database rows are explicit structures,
exceptions are `Except`, and the external providers (Gemini, Claude,
Resend, base64 codec) are parameters describing the outcome of each
boundary call.
-/

/-! ## Python string primitives -/

/-- The whitespace characters `str.strip` removes (the ASCII ones that occur
in the relevant inputs). -/
def pySpace (c : Char) : Bool :=
  c = ' ' || c = '\t' || c = '\n' || c = '\r' || c = '\x0b' || c = '\x0c'

def pyStripList (l : List Char) : List Char :=
  ((l.dropWhile pySpace).reverse.dropWhile pySpace).reverse

/-- Python `s.strip()`. -/
def pyStrip (s : String) : String := ⟨pyStripList s.data⟩

/-- Python `s.lower()` (ASCII case folding; the relevant inputs are ASCII). -/
def pyLower (s : String) : String := ⟨s.data.map Char.toLower⟩

def startsWithList [DecidableEq α] : List α → List α → Bool
  | [], _ => true
  | _ :: _, [] => false
  | a :: as, b :: bs => a = b && startsWithList as bs

def containsList [DecidableEq α] (needle : List α) : List α → Bool
  | [] => startsWithList needle []
  | b :: bs => startsWithList needle (b :: bs) || containsList needle bs

/-- Python `needle in haystack` for strings (substring containment). -/
def pyContains (haystack needle : String) : Bool :=
  containsList needle.data haystack.data

def pySplitList (sep : Char) : List Char → List (List Char)
  | [] => [[]]
  | c :: cs =>
    if c = sep then [] :: pySplitList sep cs
    else
      match pySplitList sep cs with
      | [] => [[c]]
      | g :: gs => (c :: g) :: gs

/-- Python `s.split(sep)` for a one-character separator. -/
def pySplit (s : String) (sep : Char) : List String :=
  (pySplitList sep s.data).map fun l => ⟨l⟩

/-- Python truthiness of an optional string (`None` and `""` are falsy). -/
def pyTruthyOpt : Option String → Bool
  | none => false
  | some s => !(s = "")

/-! ## Constants of src/app.py -/

/-- `MAX_AVATARS_PER_EMAIL = 3` (src/app.py line 263). -/
def MAX_AVATARS_PER_EMAIL : Nat := 3

/-- `VIBE_PLAN_ERROR_MESSAGE` (src/app.py line 261): the fixed user-facing
error text of the plan path. -/
def VIBE_PLAN_ERROR_MESSAGE : String :=
  "We couldn't generate your personalized plan at this time. The presentation will cover vibe coding techniques that you can apply to your idea!"

/-- `FALLBACK_AVATAR_PROMPT` (src/app.py line 259): the fixed default prompt
used whenever personalization is unavailable or fails. -/
def FALLBACK_AVATAR_PROMPT : String :=
  "Transform this selfie into a stylized digital art portrait of a mythical hero. Create an illustrated character that maintains the person's likeness but in a fun, artistic style. They should look like a confident champion ready to build the future. Add glowing energy effects and a dynamic background. The style should be colorful and professional, suitable for a profile picture."

/-- `UNIVERSE_VISUALS` (src/app.py lines 222-233): the enumerated domain of
the universe preference. -/
def UNIVERSE_VISUALS : List (String × String) := [
  ("scifi", "sleek spacecraft, holograms, clean futuristic tech"),
  ("fantasy", "magic runes, enchanted forests, mythical creatures"),
  ("cyberpunk", "neon-lit streets, augmented reality, gritty urban"),
  ("retro", "8-bit pixels, CRT screens, 80s synthwave colors"),
  ("nature", "forests, mountains, organic growth patterns"),
  ("steampunk", "brass gears, Victorian machinery, clockwork"),
  ("cosmic", "galaxies, nebulas, astronaut vibes"),
  ("postapoc", "rugged survival gear, wasteland, weathered tech"),
  ("noir", "shadows, mystery, moody lighting, fedoras"),
  ("underwater", "deep sea, bioluminescence, aquatic elements")]

/-- `FUEL_VISUALS` (src/app.py lines 235-246). -/
def FUEL_VISUALS : List (String × String) := [
  ("gaming", "controllers, headsets, game UI elements"),
  ("music", "headphones, sound waves, instruments"),
  ("sports", "athletic gear, motion lines, team energy"),
  ("coffee", "steaming mug, coffee beans, cozy warmth"),
  ("code", "floating syntax, terminal windows, brackets"),
  ("movies", "film reels, director chair, cinematic lighting"),
  ("travel", "maps, compass, passport stamps, landmarks"),
  ("art", "paintbrushes, color palettes, creative splashes"),
  ("fitness", "gym equipment, energy aura, strength vibes"),
  ("books", "floating tomes, spectacles, library aesthetic")]

/-- `ELEMENT_VISUALS` (src/app.py lines 248-257): the enumerated domain of
the element preference. -/
def ELEMENT_VISUALS : List (String × String) := [
  ("fire", "flames, embers, warm orange/red glow"),
  ("lightning", "electric sparks, crackling energy, blue-white"),
  ("ice", "frost crystals, cold blue, frozen particles"),
  ("earth", "stone, vines, grounded brown/green tones"),
  ("digital", "pixel distortion, data streams, matrix code"),
  ("shadow", "mysterious darkness, smoky wisps, purple-black"),
  ("cosmic", "stardust, constellation patterns, galaxy swirls"),
  ("crystal", "prismatic gems, light refraction, geometric")]

/-- `PREGENERATED_PLANS` (src/app.py lines 442-765): the fixed canned keys
and their precomputed HTML plan content, embedded verbatim. -/
def PREGENERATED_PLANS : List (String × String) := [
  ("Email & Calendar (Outlook, Gmail)",
   "\n<h3>The Vision</h3>\n<p>Imagine being able to type <strong>\"Schedule a meeting with the dev team next Tuesday at 2pm\"</strong> or <strong>\"Show me all emails from Sarah about the budget\"</strong> into a simple chat interface — and have it just happen. That's what you're building: an AI-powered assistant that talks to your email and calendar so you don't have to click through menus.</p>\n<p>The best part? You don't need to write a single line of code yourself. You'll describe what you want to an AI like Claude or ChatGPT, and it writes all the code for you.</p>\n\n<h3>Suggested Tech Stack</h3>\n<ul>\n<li><strong>Python</strong> — The AI will write it all for you. You just copy, paste, and run.</li>\n<li><strong>Streamlit</strong> — Creates a simple chat-style web interface with almost no setup.</li>\n<li><strong>Microsoft Graph API</strong> (for Outlook/Microsoft 365) or <strong>Gmail API</strong> — These are the official ways to read emails and manage calendars programmatically.</li>\n<li><strong>Claude or OpenAI API</strong> — Powers the natural language understanding so you can talk in plain English.</li>\n</ul>\n\n<h3>Core Features Breakdown</h3>\n<ol>\n<li><strong>Natural language email search</strong> — Ask \"What did John send me last week?\" and get results.</li>\n<li><strong>Calendar event creation</strong> — Say \"Block off Friday afternoon\" and it creates the event.</li>\n<li><strong>Email summarization</strong> — \"Summarize my unread emails\" gives you a quick digest.</li>\n<li><strong>Meeting scheduling</strong> — \"Find a free slot with Sarah this week\" checks both calendars.</li>\n</ol>\n\n<h3>Vibe Coding Approach</h3>\n<ol>\n<li><strong>Start here:</strong> Ask Claude to build a basic Streamlit chat app that connects to the Gmail or Outlook API.</li>\n<li><strong>Run it:</strong> Open your terminal (the black window where you type commands), paste <code>streamlit run app.py</code>, and see it in your browser.</li>\n<li><strong>Iterate:</strong> If something doesn't work, copy the error message and paste it back to Claude. Say \"I got this error, can you fix it?\"</li>\n<li><strong>Add features one at a time:</strong> Get email reading working first, then add calendar, then add natural language commands.</li>\n</ol>\n\n<h3>Your First Prompt</h3>\n<pre>Build me a Python Streamlit app that connects to the Gmail API. It should have a chat interface where I can type \"show my unread emails\" and it displays them. Start with just reading emails - I'll add more features later. Include setup instructions for someone who has never used Python before.</pre>\n\n<h3>Tips for Success</h3>\n<ul>\n<li>Start with <strong>read-only</strong> features (searching/reading emails) before moving to actions (sending, scheduling).</li>\n<li>Don't be afraid to say <strong>\"That didn't work, here's the error message\"</strong> — the AI is great at debugging.</li>\n<li>Google/Microsoft will ask you to set up API credentials. Ask Claude to walk you through it step by step.</li>\n<li>Test with your own email first before sharing with anyone else.</li>\n</ul>"),
  ("Spreadsheets & Reports (Excel, Google Sheets)",
   "\n<h3>The Vision</h3>\n<p>What if you could just say <strong>\"Create a summary report of Q4 sales by region\"</strong> or <strong>\"Highlight all rows where spending is over budget\"</strong> instead of writing complex formulas? You're going to build a chat assistant that reads, analyzes, and updates your spreadsheets using plain English.</p>\n<p>No coding experience needed — you'll describe what you want and let AI write every line of code.</p>\n\n<h3>Suggested Tech Stack</h3>\n<ul>\n<li><strong>Python</strong> — Claude will write it all. You just run it.</li>\n<li><strong>Streamlit</strong> — Gives you a drag-and-drop file upload and chat interface instantly.</li>\n<li><strong>Pandas</strong> — A Python library that makes working with spreadsheet data incredibly easy (the AI handles this part).</li>\n<li><strong>OpenPyXL</strong> — Reads and writes Excel files directly.</li>\n</ul>\n\n<h3>Core Features Breakdown</h3>\n<ol>\n<li><strong>Upload and chat</strong> — Drag in an Excel/CSV file and ask questions about the data.</li>\n<li><strong>Natural language analysis</strong> — \"What's the average sales per region?\" returns an instant answer.</li>\n<li><strong>Auto-generate reports</strong> — \"Create a pivot table of expenses by department\" builds it for you.</li>\n<li><strong>Data cleanup</strong> — \"Remove duplicate rows\" or \"Fix the date format in column C.\"</li>\n</ol>\n\n<h3>Vibe Coding Approach</h3>\n<ol>\n<li><strong>Start here:</strong> Ask Claude to build a Streamlit app where you upload a CSV file and ask questions about it.</li>\n<li><strong>Run it:</strong> Open your terminal, type <code>streamlit run app.py</code>, and open the link in your browser.</li>\n<li><strong>Iterate:</strong> Upload one of your real spreadsheets and try asking questions. If something's wrong, tell Claude.</li>\n<li><strong>Expand:</strong> Add Excel support, chart generation, and the ability to download modified files.</li>\n</ol>\n\n<h3>Your First Prompt</h3>\n<pre>Build me a Python Streamlit app where I can upload a CSV or Excel file and then ask questions about the data in a chat interface. For example, I should be able to ask \"What's the total for column B?\" or \"Show me rows where status is Pending.\" Use pandas for data handling. Include setup instructions for a beginner.</pre>\n\n<h3>Tips for Success</h3>\n<ul>\n<li>Start with <strong>CSV files</strong> first (they're simpler), then add Excel support.</li>\n<li>Use a <strong>small sample spreadsheet</strong> for testing — don't start with a 100,000-row file.</li>\n<li>If the AI gives wrong answers about your data, try saying <strong>\"Here are the column names: [list them]\"</strong> for better results.</li>\n<li>Ask Claude to add a <strong>\"Download results\"</strong> button so you can save any analysis back to a file.</li>\n</ul>"),
  ("Project Management (Jira, Trello, Asana)",
   "\n<h3>The Vision</h3>\n<p>Instead of clicking through boards and forms, imagine saying <strong>\"Create a bug ticket for the login page crash, high priority, assign to DevOps\"</strong> or <strong>\"What tickets are blocking the release?\"</strong> in a simple chat. You're building an AI assistant that talks to your project management tool.</p>\n<p>You won't write any code — just describe what you want and let AI build it.</p>\n\n<h3>Suggested Tech Stack</h3>\n<ul>\n<li><strong>Python</strong> — The AI writes everything. You just run it.</li>\n<li><strong>Streamlit</strong> — Simple chat interface, no web development needed.</li>\n<li><strong>Jira REST API / Trello API / Asana API</strong> — The official way to interact with these tools programmatically.</li>\n<li><strong>Claude or OpenAI API</strong> — Understands your plain English requests and translates them to API calls.</li>\n</ul>\n\n<h3>Core Features Breakdown</h3>\n<ol>\n<li><strong>Quick ticket creation</strong> — \"Create a task: Update firewall rules, assign to network team, due Friday.\"</li>\n<li><strong>Status queries</strong> — \"What's open in the current sprint?\" or \"Show me all my tickets.\"</li>\n<li><strong>Bulk updates</strong> — \"Move all QA-approved tickets to Done.\"</li>\n<li><strong>Sprint summaries</strong> — \"Give me a summary of what shipped this sprint.\"</li>\n</ol>\n\n<h3>Vibe Coding Approach</h3>\n<ol>\n<li><strong>Start here:</strong> Ask Claude to build a Streamlit app that connects to Jira's REST API and lists your current tickets.</li>\n<li><strong>Run it:</strong> Open your terminal, type <code>streamlit run app.py</code>, and test it.</li>\n<li><strong>Iterate:</strong> Once reading works, ask Claude to add ticket creation through the chat interface.</li>\n<li><strong>Expand:</strong> Add natural language queries like \"Show all critical bugs assigned to me.\"</li>\n</ol>\n\n<h3>Your First Prompt</h3>\n<pre>Build me a Python Streamlit app that connects to Jira using its REST API. Start with a simple chat interface where I can type \"show my tickets\" and it lists my assigned issues. I'll need instructions on how to get a Jira API token. Make it beginner-friendly — I've never used Python before.</pre>\n\n<h3>Tips for Success</h3>\n<ul>\n<li>Start with <strong>read-only</strong> actions (listing tickets) before adding create/update capabilities.</li>\n<li>You'll need an <strong>API token</strong> from your project tool — ask Claude to walk you through getting one.</li>\n<li>Test with a <strong>sandbox project</strong> first so you don't accidentally modify real work items.</li>\n<li>If your company restricts API access, check with your admin — you may need permission first.</li>\n</ul>"),
  ("Document Creation (Word, Google Docs)",
   "\n<h3>The Vision</h3>\n<p>What if you could say <strong>\"Draft a change management document for the network upgrade\"</strong> or <strong>\"Create a weekly status report from these bullet points\"</strong> and get a polished document instantly? You're building an AI assistant that creates and manages documents for you.</p>\n<p>No coding required — you describe what you want and AI builds the whole thing.</p>\n\n<h3>Suggested Tech Stack</h3>\n<ul>\n<li><strong>Python</strong> — Claude writes all the code. You just run it.</li>\n<li><strong>Streamlit</strong> — Simple interface for chatting and downloading documents.</li>\n<li><strong>python-docx</strong> — Creates Word documents programmatically.</li>\n<li><strong>Google Docs API</strong> — If you prefer Google Docs over Word files.</li>\n</ul>\n\n<h3>Core Features Breakdown</h3>\n<ol>\n<li><strong>Document generation</strong> — Describe what you need, get a formatted Word doc or Google Doc.</li>\n<li><strong>Template filling</strong> — \"Fill in the change request template for server migration on March 15th.\"</li>\n<li><strong>Report compilation</strong> — \"Combine these notes into a weekly status report.\"</li>\n<li><strong>Format conversion</strong> — Upload rough notes, get back a polished document.</li>\n</ol>\n\n<h3>Vibe Coding Approach</h3>\n<ol>\n<li><strong>Start here:</strong> Ask Claude to build a Streamlit app where you type a document description and it generates a downloadable Word file.</li>\n<li><strong>Run it:</strong> Open your terminal, type <code>streamlit run app.py</code>, and try it out.</li>\n<li><strong>Iterate:</strong> If the formatting isn't right, tell Claude what you want changed.</li>\n<li><strong>Expand:</strong> Add templates, upload existing docs for editing, or connect to Google Docs.</li>\n</ol>\n\n<h3>Your First Prompt</h3>\n<pre>Build me a Python Streamlit app where I can describe a document I need in a text box, and it generates a formatted Word document (.docx) that I can download. For example, if I type \"weekly status report for the infrastructure team,\" it should create a professional document with appropriate sections. Include setup instructions for a complete beginner.</pre>\n\n<h3>Tips for Success</h3>\n<ul>\n<li>Start with <strong>Word file generation</strong> — it's simpler than the Google Docs API.</li>\n<li>Create a few <strong>document templates</strong> that match what you actually write at work.</li>\n<li>Ask Claude to add a <strong>\"refine\" feature</strong> where you can say \"make the executive summary shorter.\"</li>\n<li>You can always copy-paste the AI output into your existing templates if you prefer.</li>\n</ul>"),
  ("CRM & Sales Tools (Salesforce, HubSpot)",
   "\n<h3>The Vision</h3>\n<p>Instead of navigating through endless CRM screens, imagine typing <strong>\"Show me all deals closing this month over $50k\"</strong> or <strong>\"Log a call with Acme Corp — discussed renewal, they want a demo next week.\"</strong> You're building a chat interface to your CRM that saves time on every interaction.</p>\n<p>You don't need to code — just describe what you want and AI builds it for you.</p>\n\n<h3>Suggested Tech Stack</h3>\n<ul>\n<li><strong>Python</strong> — Claude writes it all. You copy, paste, and run.</li>\n<li><strong>Streamlit</strong> — Instant chat interface, no web development skills needed.</li>\n<li><strong>Salesforce REST API / HubSpot API</strong> — Official APIs to read and write CRM data.</li>\n<li><strong>Claude or OpenAI API</strong> — Translates your plain English into CRM queries and updates.</li>\n</ul>\n\n<h3>Core Features Breakdown</h3>\n<ol>\n<li><strong>Natural language queries</strong> — \"Show all open opportunities for Q1\" returns results instantly.</li>\n<li><strong>Quick data entry</strong> — \"Add a note to the Acme Corp account: discussed pricing on Feb 5th.\"</li>\n<li><strong>Pipeline summaries</strong> — \"Give me a forecast summary for this quarter.\"</li>\n<li><strong>Contact lookup</strong> — \"Who's our contact at Globex? When did we last talk to them?\"</li>\n</ol>\n\n<h3>Vibe Coding Approach</h3>\n<ol>\n<li><strong>Start here:</strong> Ask Claude to build a Streamlit app that connects to the Salesforce or HubSpot API and lists recent deals.</li>\n<li><strong>Run it:</strong> Open your terminal, type <code>streamlit run app.py</code>, and check the results.</li>\n<li><strong>Iterate:</strong> Once reading works, add the ability to search and filter with natural language.</li>\n<li><strong>Expand:</strong> Add note logging, contact management, and pipeline reporting.</li>\n</ol>\n\n<h3>Your First Prompt</h3>\n<pre>Build me a Python Streamlit app that connects to the Salesforce REST API (or HubSpot API). It should have a chat interface where I can type \"show my open deals\" and see a list of my current opportunities. Include step-by-step instructions for getting API credentials and setting up Python for the first time.</pre>\n\n<h3>Tips for Success</h3>\n<ul>\n<li>Start with <strong>read-only access</strong> to your CRM before adding write operations.</li>\n<li>Use a <strong>sandbox or developer account</strong> for testing — don't experiment with production data.</li>\n<li>Salesforce and HubSpot both have <strong>free developer accounts</strong> — ask Claude how to set one up.</li>\n<li>If you get authentication errors, paste the full error into Claude and ask it to help troubleshoot.</li>\n</ul>"),
  ("File Organization & Storage (SharePoint, Drive)",
   "\n<h3>The Vision</h3>\n<p>Tired of digging through nested folders to find that one document? Imagine saying <strong>\"Find the network diagram we updated last month\"</strong> or <strong>\"Move all the Q4 reports into the archive folder.\"</strong> You're building a chat assistant that manages your files using plain English.</p>\n<p>No coding experience needed — AI writes everything for you.</p>\n\n<h3>Suggested Tech Stack</h3>\n<ul>\n<li><strong>Python</strong> — Claude handles all the code. You just run it.</li>\n<li><strong>Streamlit</strong> — Simple chat interface for file operations.</li>\n<li><strong>Microsoft Graph API</strong> (for SharePoint/OneDrive) or <strong>Google Drive API</strong> — Official file management APIs.</li>\n<li><strong>Claude or OpenAI API</strong> — Understands what you're asking for and translates it to file operations.</li>\n</ul>\n\n<h3>Core Features Breakdown</h3>\n<ol>\n<li><strong>Natural language search</strong> — \"Find all PowerPoints about the budget from last quarter.\"</li>\n<li><strong>File organization</strong> — \"Move everything in Downloads older than 30 days to Archive.\"</li>\n<li><strong>Content search</strong> — \"Which documents mention the VPN migration?\"</li>\n<li><strong>Quick sharing</strong> — \"Share the project plan with the infrastructure team.\"</li>\n</ol>\n\n<h3>Vibe Coding Approach</h3>\n<ol>\n<li><strong>Start here:</strong> Ask Claude to build a Streamlit app that connects to Google Drive or SharePoint and lists files in a folder.</li>\n<li><strong>Run it:</strong> Open your terminal, type <code>streamlit run app.py</code>, and verify it shows your files.</li>\n<li><strong>Iterate:</strong> Add search capabilities next — \"find files matching X.\"</li>\n<li><strong>Expand:</strong> Add move/copy operations, bulk organization, and content search.</li>\n</ol>\n\n<h3>Your First Prompt</h3>\n<pre>Build me a Python Streamlit app that connects to Google Drive (or SharePoint via Microsoft Graph API). It should have a chat interface where I can type \"show files in my Documents folder\" or \"find files named budget.\" Start simple with listing and searching. Include setup instructions for someone who has never coded before.</pre>\n\n<h3>Tips for Success</h3>\n<ul>\n<li>Start with <strong>listing and searching</strong> before adding move/delete operations.</li>\n<li>Always add a <strong>confirmation step</strong> before deleting or moving files — mistakes are hard to undo.</li>\n<li>Test with a <strong>non-critical folder</strong> first — don't point it at your most important files right away.</li>\n<li>The API credentials setup can be tricky — ask Claude to guide you through it step by step.</li>\n</ul>"),
  ("Network Source of Truth (Netbox, Nautobot, Infrahub, IP Fabric, NetBrain, etc.)",
   "\n<h3>The Vision</h3>\n<p>What if you could just ask <strong>\"What IP addresses are assigned in the 10.50.0.0/24 subnet?\"</strong> or <strong>\"Show me all switches in the NYC data center that are end-of-life\"</strong> instead of clicking through your source of truth UI? You're building a natural language chat interface to your network source of truth.</p>\n<p>No coding required — you describe what you want and AI builds everything.</p>\n\n<h3>Suggested Tech Stack</h3>\n<ul>\n<li><strong>Python</strong> — Claude writes all the code. You just run it.</li>\n<li><strong>Streamlit</strong> — Gives you an instant chat interface with no web development.</li>\n<li><strong>NetBox/Nautobot REST API</strong> — These tools have excellent APIs for querying and updating network data.</li>\n<li><strong>Claude or OpenAI API</strong> — Translates your plain English into the right API calls.</li>\n</ul>\n\n<h3>Core Features Breakdown</h3>\n<ol>\n<li><strong>Device lookups</strong> — \"Show me all Cisco 9300s in the Dallas site\" returns a clean table.</li>\n<li><strong>IP address management</strong> — \"What's the next available IP in the server VLAN?\" gives you an answer instantly.</li>\n<li><strong>Circuit and connection queries</strong> — \"What's connected to port Gi1/0/24 on switch NYC-ACC-01?\"</li>\n<li><strong>Inventory reports</strong> — \"How many devices are running IOS-XE 17.3 or older?\"</li>\n<li><strong>Change planning</strong> — \"List all interfaces in VLAN 100 across all sites.\"</li>\n</ol>\n\n<h3>Vibe Coding Approach</h3>\n<ol>\n<li><strong>Start here:</strong> Ask Claude to build a Streamlit app that connects to your NetBox/Nautobot API and lists devices.</li>\n<li><strong>Run it:</strong> Open your terminal, type <code>streamlit run app.py</code>, and verify it pulls your devices.</li>\n<li><strong>Iterate:</strong> Add natural language search — \"show me all firewalls\" should filter devices by role.</li>\n<li><strong>Expand:</strong> Add IP address lookups, interface queries, and the ability to create reservations.</li>\n</ol>\n\n<h3>Your First Prompt</h3>\n<pre>Build me a Python Streamlit app that connects to a NetBox instance via its REST API. It should have a chat interface where I can ask things like \"show all devices in site NYC\" or \"what IPs are in the 10.0.1.0/24 prefix?\" I'll provide the NetBox URL and API token. Include instructions for setting up Python and getting a NetBox API token.</pre>\n\n<h3>Tips for Success</h3>\n<ul>\n<li>Start with <strong>read-only queries</strong> (device lookups, IP searches) before adding create/update operations.</li>\n<li>NetBox and Nautobot both have <strong>excellent API documentation</strong> — tell Claude which platform you use and it will know the API endpoints.</li>\n<li>Use your <strong>staging/lab instance</strong> for testing, not production, especially when adding write operations.</li>\n<li>If you use IP Fabric or NetBrain, the APIs are different — just tell Claude which tool you have and it will adapt.</li>\n</ul>"),
  ("Network Security (CVE reporting & mitigation, FW rule checks, etc.)",
   "\n<h3>The Vision</h3>\n<p>Imagine asking <strong>\"Are any of our Cisco devices affected by CVE-2024-20356?\"</strong> or <strong>\"Show me all firewall rules that allow any-to-any\"</strong> and getting an instant answer. You're building an AI-powered network security assistant that checks vulnerabilities, audits firewall rules, and helps you stay on top of your security posture.</p>\n<p>You don't need to write code — you'll describe what you want and let AI build it all.</p>\n\n<h3>Suggested Tech Stack</h3>\n<ul>\n<li><strong>Python</strong> — Claude writes everything. You copy, paste, and run.</li>\n<li><strong>Streamlit</strong> — Simple chat interface, no web development needed.</li>\n<li><strong>NVD/NIST API</strong> — Free access to the National Vulnerability Database for CVE lookups.</li>\n<li><strong>Your firewall's API</strong> (Palo Alto Panorama, Fortinet FortiManager, Cisco FMC, etc.) — For pulling and auditing rules.</li>\n<li><strong>Claude or OpenAI API</strong> — Understands your security questions and generates actionable reports.</li>\n</ul>\n\n<h3>Core Features Breakdown</h3>\n<ol>\n<li><strong>CVE impact checks</strong> — \"Which of our devices are affected by this CVE?\" cross-references your inventory with vulnerability data.</li>\n<li><strong>Firewall rule audits</strong> — \"Show me all rules with 'any' in the source or destination\" flags overly permissive rules.</li>\n<li><strong>Mitigation guidance</strong> — \"What's the recommended fix for CVE-2024-12345?\" pulls remediation steps.</li>\n<li><strong>Compliance checks</strong> — \"Do any rules violate our policy of no direct internet access from the server VLAN?\"</li>\n<li><strong>Security summaries</strong> — \"Give me a weekly vulnerability report for all critical-severity CVEs affecting our platform.\"</li>\n</ol>\n\n<h3>Vibe Coding Approach</h3>\n<ol>\n<li><strong>Start here:</strong> Ask Claude to build a Streamlit app that queries the NVD API for CVE details when you type a CVE ID.</li>\n<li><strong>Run it:</strong> Open your terminal, type <code>streamlit run app.py</code>, and test with a known CVE.</li>\n<li><strong>Iterate:</strong> Add the ability to cross-reference CVEs against a list of your devices and software versions.</li>\n<li><strong>Expand:</strong> Connect to your firewall's API to pull rules and run audit checks via chat.</li>\n</ol>\n\n<h3>Your First Prompt</h3>\n<pre>Build me a Python Streamlit app for network security. It should have a chat interface where I can type a CVE ID (like CVE-2024-20356) and it pulls the details from the NIST NVD API — severity, affected products, and remediation info. Also let me upload a CSV of my network devices (hostname, vendor, OS version) and ask \"which of my devices are affected by this CVE?\" Include beginner-friendly setup instructions.</pre>\n\n<h3>Tips for Success</h3>\n<ul>\n<li>Start with <strong>CVE lookups against the free NVD API</strong> before trying to connect to firewalls — it's the easiest win.</li>\n<li>Keep a <strong>CSV inventory of your devices</strong> (hostname, vendor, OS, version) — this is the simplest way to cross-reference vulnerabilities.</li>\n<li>When connecting to firewall APIs, always use <strong>read-only credentials</strong> — you never want an AI assistant accidentally modifying security rules.</li>\n<li>Ask Claude to add <strong>severity filtering</strong> — most teams only need to act on Critical and High CVEs immediately.</li>\n</ul>")]

/-! ## The Claude (text-generation) boundary

`client.messages.create` either raises (`anthropic.APITimeoutError`,
`anthropic.APIError`, or any other exception) or returns text. A value of
`ClaudeOutcome` is the behaviour of the one call a code path makes; `none`
at the call sites below models `get_claude_client()` returning `None`
(no `ANTHROPIC_API_KEY` configured). -/

inductive ClaudeOutcome
  | timeout
  | apiError (msg : String)
  | otherError (msg : String)
  | ok (text : String)
deriving DecidableEq, Repr

/-- `generate_avatar_prompt` (src/app.py lines 343-439). Returns the
personalized prompt, or `FALLBACK_AVATAR_PROMPT` when the client is absent,
a preference field is outside its domain, the fuels list does not have
exactly 2 entries, the Claude call raises, or the stripped output is
shorter than 50 characters. `univ` is the source's `universe` argument
(renamed: `universe` is a Lean keyword). -/
def generate_avatar_prompt (client : Option ClaudeOutcome)
    (univ : String) (fuels : List String) (element : String) : String :=
  match client with
  | none => FALLBACK_AVATAR_PROMPT
  | some outcome =>
    if (UNIVERSE_VISUALS.lookup univ).isNone then FALLBACK_AVATAR_PROMPT
    else if fuels.length ≠ 2 then FALLBACK_AVATAR_PROMPT
    else if (ELEMENT_VISUALS.lookup element).isNone then FALLBACK_AVATAR_PROMPT
    else
      match outcome with
      | .ok text =>
        let prompt := pyStrip text
        if prompt.length < 50 then FALLBACK_AVATAR_PROMPT
        else prompt
      | _ => FALLBACK_AVATAR_PROMPT

/-- What `generate_vibe_plan` (src/app.py lines 768-870) returns, plus an
instrumentation field counting Claude provider calls made. The source
returns the pair `(content, success)`. -/
structure VibePlanResult where
  content : String
  success : Bool
  claudeCalls : Nat
deriving DecidableEq, Repr

/-- `generate_vibe_plan` (src/app.py lines 768-870). Empty or
whitespace-only input and a missing client resolve to the fixed error
message without a provider call; a raising call, an output stripped to
fewer than 200 characters, or an output without an `<h3>` marker resolve
to the fixed error message after the one call; otherwise the stripped
output is the plan. -/
def generate_vibe_plan (client : Option ClaudeOutcome) (wishlist_app : String) :
    VibePlanResult :=
  if wishlist_app = "" || pyStrip wishlist_app = "" then
    ⟨VIBE_PLAN_ERROR_MESSAGE, false, 0⟩
  else
    match client with
    | none => ⟨VIBE_PLAN_ERROR_MESSAGE, false, 0⟩
    | some outcome =>
      match outcome with
      | .ok text =>
        let plan := pyStrip text
        if plan.length < 200 || !(pyContains plan "<h3>") then
          ⟨VIBE_PLAN_ERROR_MESSAGE, false, 1⟩
        else ⟨plan, true, 1⟩
      | _ => ⟨VIBE_PLAN_ERROR_MESSAGE, false, 1⟩

/-! ## The Gemini (image-generation) boundary and the retry loop -/

/-- One part of the Gemini structured response
(`response.candidates[0].content.parts`): a part either carries
`inline_data` (an image payload, raw bytes modelled as a string) or text. -/
inductive GeminiPart
  | image (data : String)
  | text (t : String)
deriving DecidableEq, Repr

/-- The outcome of one `client.models.generate_content` call: the parts of
the first candidate, or a raised exception stringified. An empty
candidate list is modelled as `ok []`. -/
inductive GeminiOutcome
  | ok (parts : List GeminiPart)
  | err (msg : String)
deriving DecidableEq, Repr

/-- `MAX_RETRIES = 3` (src/app.py line 886). -/
def MAX_RETRIES : Nat := 3

/-- `BASE_DELAY = 2` seconds (src/app.py line 887). -/
def BASE_DELAY : Nat := 2

/-- `RETRYABLE_ERRORS` (src/app.py line 888): the transient-failure
allow-list. -/
def RETRYABLE_ERRORS : List String :=
  ["503", "UNAVAILABLE", "overloaded", "429", "RESOURCE_EXHAUSTED"]

/-- `any(err in error_str for err in RETRYABLE_ERRORS)` (src/app.py
line 952). -/
def isRetryableError (error_str : String) : Bool :=
  RETRYABLE_ERRORS.any fun e => pyContains error_str e

/-- What the retry loop produces: how many provider calls were made, the
backoff delays slept (in seconds, in order), and the response parts or the
stringified exception that was re-raised. -/
structure RetryResult where
  calls : Nat
  delays : List Nat
  outcome : Except String (List GeminiPart)
deriving Repr

/-- The body of `for attempt in range(MAX_RETRIES)` (src/app.py lines
925-962), with `provider attempt` the outcome of the call made on that
attempt. `remaining` is the number of loop iterations left, structurally
decreasing; the `remaining = 0` base case is the dead `response is None`
re-raise after the loop (src/app.py lines 964-965), unreachable because the
last attempt either breaks or re-raises. On a retryable error before the
last attempt the loop sleeps `BASE_DELAY * 2 ** attempt` seconds and
retries; otherwise it re-raises the error. -/
def geminiAttemptLoop (provider : Nat → GeminiOutcome) :
    (attempt : Nat) → (remaining : Nat) → RetryResult
  | _, 0 => ⟨0, [], .error "No response from Gemini API after retries"⟩
  | attempt, remaining + 1 =>
    match provider attempt with
    | .ok parts => ⟨1, [], .ok parts⟩
    | .err e =>
      if isRetryableError e && decide (attempt < MAX_RETRIES - 1) then
        let rest := geminiAttemptLoop provider (attempt + 1) remaining
        ⟨rest.calls + 1, (BASE_DELAY * 2 ^ attempt) :: rest.delays, rest.outcome⟩
      else ⟨1, [], .error e⟩

/-- The whole retry loop of the avatar runner: attempts start at 0, at most
`MAX_RETRIES` of them. -/
def geminiGenerate (provider : Nat → GeminiOutcome) : RetryResult :=
  geminiAttemptLoop provider 0 MAX_RETRIES

/-- Image extraction (src/app.py lines 970-980): scan the parts in order
and take the first one carrying `inline_data`. -/
def extractImage : List GeminiPart → Option String
  | [] => none
  | .image data :: _ => some data
  | .text _ :: rest => extractImage rest

/-! ## The avatar job runner -/

/-- `selfie_base64.split(',')[1] if ',' in selfie_base64 else selfie_base64`
(src/app.py line 903): strip a `data:...;base64,` prefix. When a comma is
present `split` yields at least two pieces, so the `getD` default is never
used. -/
def stripDataUri (selfie_base64 : String) : String :=
  if pyContains selfie_base64 "," then (pySplit selfie_base64 ',').getD 1 selfie_base64
  else selfie_base64

/-- The complete preference triple the submission handler forwards
(`avatar_universe`, `avatar_fuels`, `avatar_element`); `none` at the runner
models a missing or incomplete preferences dict (src/app.py line 907). -/
structure Preferences where
  avatar_universe : String
  avatar_fuels : List String
  avatar_element : String
deriving DecidableEq, Repr

/-- The external-boundary behaviour visible to one avatar runner run:
whether `GEMINI_API_KEY` is configured, the base64 codec
(`base64.b64decode` raising is an `Except.error` carrying the stringified
exception; `base64.b64encode(...).decode` is total), the Claude secondary
call's outcome and the Gemini call outcome per attempt number. -/
structure AvatarEnv where
  gemini_api_key : Bool
  b64decode : String → Except String String
  b64encode : String → String
  claude : Option ClaudeOutcome
  gemini : Nat → GeminiOutcome

/-- Steps 1-4 of `generate_avatar_async` (src/app.py lines 890-985), the
part inside the `try`: produce the encoded generated image, or the
stringified exception that was raised; alongside, the number of Gemini
calls made and the backoff delays slept. -/
def generate_avatar_inner (env : AvatarEnv) (selfie_base64 : String)
    (preferences : Option Preferences) :
    Except String String × Nat × List Nat :=
  if !env.gemini_api_key then (.error "Gemini API key not configured", 0, [])
  else
    match env.b64decode (stripDataUri selfie_base64) with
    | .error e => (.error e, 0, [])
    | .ok _image_data =>
      let _prompt :=
        match preferences with
        | some p =>
          generate_avatar_prompt env.claude p.avatar_universe p.avatar_fuels p.avatar_element
        | none => FALLBACK_AVATAR_PROMPT
      let retry := geminiGenerate env.gemini
      match retry.outcome with
      | .error e => (.error e, retry.calls, retry.delays)
      | .ok parts =>
        match extractImage parts with
        | none =>
          (.error "No image generated in response - check logs for details",
            retry.calls, retry.delays)
        | some data =>
          let generated_image := env.b64encode data
          if generated_image = "" then
            (.error "No image generated in response - check logs for details",
              retry.calls, retry.delays)
          else (.ok generated_image, retry.calls, retry.delays)

/-- Job status column: `pending` at creation, then exactly one terminal
write. -/
inductive JobStatus
  | pending
  | completed
  | failed
deriving DecidableEq, Repr

/-- What one `generate_avatar_async` run writes and does: the terminal row
fields (src/app.py lines 990-994 on success, 1012-1016 on failure), whether
the completion coordinator was invoked, and the Gemini call/delay
instrumentation. -/
structure AvatarRunResult where
  status : JobStatus
  image_data : Option String
  error_message : Option String
  completed_at : Bool
  coordinatorCalled : Bool
  geminiCalls : Nat
  delays : List Nat

/-- `generate_avatar_async` (src/app.py lines 873-1023): the runner is the
final catcher; on success it writes the completed row and invokes the
coordinator (lines 988-1002), on any exception it writes the failed row
with the stringified exception and still invokes the coordinator (lines
1005-1023). -/
def generate_avatar_async (env : AvatarEnv) (selfie_base64 : String)
    (preferences : Option Preferences) : AvatarRunResult :=
  match generate_avatar_inner env selfie_base64 preferences with
  | (.ok generated_image, calls, delays) =>
    ⟨.completed, some generated_image, none, true, true, calls, delays⟩
  | (.error e, calls, delays) =>
    ⟨.failed, none, some e, true, true, calls, delays⟩

/-! ## The plan job runner -/

/-- What one `generate_plan_async` run writes and does (src/app.py lines
1050-1063): terminal row fields, coordinator invocation, Claude call
count. -/
structure PlanRunResult where
  status : JobStatus
  plan_content : Option String
  error_message : Option String
  completed_at : Bool
  coordinatorCalled : Bool
  claudeCalls : Nat
deriving DecidableEq, Repr

/-- `generate_plan_async` (src/app.py lines 1026-1089): a wishlist exactly
matching a canned key resolves with the precomputed content and no provider
call (lines 1039-1042); otherwise `generate_vibe_plan` decides, success
writing the completed row with the content and failure writing the failed
row with the error text as `error_message` (lines 1050-1063); the
coordinator is invoked in every case. -/
def generate_plan_async (client : Option ClaudeOutcome) (wishlist_app : String) :
    PlanRunResult :=
  match PREGENERATED_PLANS.lookup wishlist_app with
  | some plan_content => ⟨.completed, some plan_content, none, true, true, 0⟩
  | none =>
    let r := generate_vibe_plan client wishlist_app
    if r.success then ⟨.completed, some r.content, none, true, true, r.claudeCalls⟩
    else ⟨.failed, none, some r.content, true, true, r.claudeCalls⟩

/-! ## The completion coordinator -/

/-- The avatar row as the coordinator reads it
(`SELECT id, status, image_data FROM avatars WHERE response_id = ...`,
src/app.py lines 1104-1106). -/
structure AvatarRow where
  id : String
  status : JobStatus
  image_data : Option String
deriving DecidableEq, Repr

/-- The plan row as the coordinator reads it
(`SELECT id, status, plan_content FROM vibe_plans WHERE response_id = ...`,
src/app.py lines 1110-1112). -/
structure PlanRow where
  id : String
  status : JobStatus
  plan_content : Option String
deriving DecidableEq, Repr

/-- The arguments of one `send_combined_email` call (src/app.py
line 1140). -/
structure EmailCall where
  email : String
  avatar_id : Option String
  avatar_data : Option String
  plan_content : Option String
deriving DecidableEq, Repr

/-- `check_and_send_email` (src/app.py lines 1092-1142) as a function of the
two fetched rows: `none` when no email is sent, `some call` when
`send_combined_email` is called with `call`. If either located row is
`pending`, return; otherwise the avatar contributes `(id, image_data)` iff
completed and the plan contributes `plan_content` iff completed, and the
email is sent iff `avatar_id or plan_content` is truthy in Python
(non-`None` and non-empty). -/
def check_and_send_email (email : String) (avatar : Option AvatarRow)
    (plan : Option PlanRow) : Option EmailCall :=
  let avatar_pending :=
    match avatar with
    | some a => a.status = JobStatus.pending
    | none => false
  let plan_pending :=
    match plan with
    | some p => p.status = JobStatus.pending
    | none => false
  if avatar_pending || plan_pending then none
  else
    let av : Option String × Option String :=
      match avatar with
      | some a =>
        if a.status = JobStatus.completed then (some a.id, a.image_data)
        else (none, none)
      | none => (none, none)
    let plan_content :=
      match plan with
      | some p => if p.status = JobStatus.completed then p.plan_content else none
      | none => none
    if pyTruthyOpt av.1 || pyTruthyOpt plan_content then
      some ⟨email, av.1, av.2, plan_content⟩
    else none

/-! ## The two runner threads and their interleavings

Each job runs on its own fire-and-forget thread (src/app.py lines
1379-1384, 1399-1404). A thread's visible actions on the shared store are:
the single terminal `UPDATE` of its own row, then its
`check_and_send_email` invocation; the store serializes individual
statements but nothing spans the write and the subsequent read-decide-send.
An execution is an interleaving of the two threads' action sequences. -/

/-- An atomic action on the shared store: a runner's terminal write of its
own row, or one full `check_and_send_email` invocation (read both rows,
decide, possibly send). Making the coordinator invocation one atomic
action only shrinks the set of executions; the double-send interleaving
below needs no finer granularity. -/
inductive RunnerAct
  | writeAvatar (r : AvatarRow)
  | writePlan (r : PlanRow)
  | coordinate
deriving DecidableEq, Repr

/-- The shared state for one response: its avatar row, its plan row, and how
many emails `send_combined_email` has been asked to send. -/
structure CoordWorld where
  avatar : AvatarRow
  plan : PlanRow
  emailsSent : Nat
deriving DecidableEq, Repr

def coordStep (email : String) (w : CoordWorld) : RunnerAct → CoordWorld
  | .writeAvatar r => { w with avatar := r }
  | .writePlan r => { w with plan := r }
  | .coordinate =>
    match check_and_send_email email (some w.avatar) (some w.plan) with
    | some _ => { w with emailsSent := w.emailsSent + 1 }
    | none => w

def runTrace (email : String) (w : CoordWorld) : List RunnerAct → CoordWorld
  | [] => w
  | a :: rest => runTrace email (coordStep email w a) rest

/-- The avatar runner thread's action sequence: write the terminal row `r`,
then invoke the coordinator (src/app.py lines 990-1002 and 1012-1023). -/
def avatarThread (r : AvatarRow) : List RunnerAct := [.writeAvatar r, .coordinate]

/-- The plan runner thread's action sequence (src/app.py lines
1050-1070 and 1079-1089). -/
def planThread (r : PlanRow) : List RunnerAct := [.writePlan r, .coordinate]

def interleavingsAux : Nat → List α → List α → List (List α)
  | _, [], ys => [ys]
  | _, x :: xs, [] => [x :: xs]
  | 0, _, _ => []
  | fuel + 1, x :: xs, y :: ys =>
    ((interleavingsAux fuel xs (y :: ys)).map fun t => x :: t) ++
      ((interleavingsAux fuel (x :: xs) ys).map fun t => y :: t)

/-- All interleavings of two threads' action sequences (each thread's own
order preserved). -/
def interleavings (xs ys : List α) : List (List α) :=
  interleavingsAux (xs.length + ys.length) xs ys

/-- Initial state: both rows created `pending` by the submission handler
(src/app.py lines 1371-1375 and 1391-1395). -/
def initWorld (avatar_id plan_id : String) : CoordWorld :=
  ⟨⟨avatar_id, .pending, none⟩, ⟨plan_id, .pending, none⟩, 0⟩

/-! ## The submission handler and the quota check -/

/-- An avatar job row as the submission handler inserts it (src/app.py
lines 1370-1374). -/
structure AvatarJobRow where
  id : String
  email : String
  response_id : Nat
  status : JobStatus
deriving DecidableEq, Repr

/-- `get_avatar_count` (src/app.py lines 332-340): `SELECT COUNT(*) FROM
avatars WHERE email = ...`. -/
def get_avatar_count (db : List AvatarJobRow) (email : String) : Nat :=
  (db.filter fun r => r.email = email).length

/-- What the avatar-creation part of `submit` leaves behind: the avatar
table and the `avatar_queued` flag. -/
structure SubmitResult where
  db : List AvatarJobRow
  avatar_queued : Bool
deriving DecidableEq, Repr

/-- The email normalization both endpoints apply:
`request.form.get('email', '').lower().strip()` (src/app.py line 1336) and
`request.json.get('email', '').lower().strip()` (line 1294). -/
def normalizeEmail (raw : String) : String := pyStrip (pyLower raw)

/-- The avatar-creation part of `submit` (src/app.py lines 1336-1385): with
the normalized email, when both an email and a selfie are present, count
the rows owned by the email and insert a new `pending` row only when the
count is below `MAX_AVATARS_PER_EMAIL`. -/
def submitAvatarStep (db : List AvatarJobRow) (new_id : String)
    (response_id : Nat) (raw_email selfie_data : String) : SubmitResult :=
  let email := normalizeEmail raw_email
  if email ≠ "" && selfie_data ≠ "" then
    if get_avatar_count db email < MAX_AVATARS_PER_EMAIL then
      ⟨⟨new_id, email, response_id, JobStatus.pending⟩ :: db, true⟩
    else ⟨db, false⟩
  else ⟨db, false⟩

/-- The `/check-email` endpoint's reply (src/app.py lines 1291-1306): the
early `Email required` reply, or the quota reply with `allowed` and
`remaining`. -/
inductive CheckEmailReply
  | emailRequired
  | quota (allowed : Bool) (remaining : Int)
deriving DecidableEq, Repr

/-- `check_email` (src/app.py lines 1291-1306). -/
def check_email (db : List AvatarJobRow) (raw_email : String) : CheckEmailReply :=
  let email := normalizeEmail raw_email
  if email = "" then .emailRequired
  else
    let count := get_avatar_count db email
    .quota (decide (count < MAX_AVATARS_PER_EMAIL))
      ((MAX_AVATARS_PER_EMAIL : Int) - count)

/-! ## Theorems -/

/-- Claim C2: for every Response for which at least one existing job row has
status `pending` when the coordinator runs, `check_and_send_email` returns
without calling the notifier, regardless of the other row's state or
absence. -/
theorem coordinator_never_notifies_while_pending (email : String)
    (avatar : Option AvatarRow) (plan : Option PlanRow)
    (h : (∃ a, avatar = some a ∧ a.status = JobStatus.pending) ∨
      (∃ p, plan = some p ∧ p.status = JobStatus.pending)) :
    check_and_send_email email avatar plan = none := by
  rcases h with ⟨a, rfl, ha⟩ | ⟨p, rfl, hp⟩ <;>
    simp [check_and_send_email, *]

/-- Witness for C2: an avatar row still `pending` next to a completed plan
row yields no email. -/
theorem coordinator_never_notifies_while_pending_witness :
    check_and_send_email "a@x.com" (some ⟨"a1", JobStatus.pending, none⟩)
      (some ⟨"p1", JobStatus.completed, some "<h3>x</h3>"⟩) = none :=
  coordinator_never_notifies_while_pending "a@x.com" _ _ (Or.inl ⟨_, rfl, rfl⟩)

/-- Claim C6: every wishlist input exactly matching a canned key resolves
the plan job `completed` with the precomputed canned content and no
text-provider call, whatever the provider client would have done. -/
theorem plan_canned_key_bypasses_provider (client : Option ClaudeOutcome)
    (wishlist_app : String)
    (h : (PREGENERATED_PLANS.lookup wishlist_app).isSome = true) :
    generate_plan_async client wishlist_app =
      ⟨JobStatus.completed, PREGENERATED_PLANS.lookup wishlist_app, none,
        true, true, 0⟩ := by
  obtain ⟨v, hv⟩ := Option.isSome_iff_exists.mp h
  simp [generate_plan_async, hv]

/-- Witness for C6: the first canned key, with a text provider that would
time out, still resolves completed with the canned content and zero
provider calls. -/
theorem plan_canned_key_bypasses_provider_witness :
    (generate_plan_async (some .timeout) "Email & Calendar (Outlook, Gmail)").status =
        JobStatus.completed ∧
      (generate_plan_async (some .timeout) "Email & Calendar (Outlook, Gmail)").claudeCalls = 0 ∧
      (generate_plan_async (some .timeout) "Email & Calendar (Outlook, Gmail)").plan_content =
        PREGENERATED_PLANS.lookup "Email & Calendar (Outlook, Gmail)" := by
  rw [plan_canned_key_bypasses_provider (some .timeout)
    "Email & Calendar (Outlook, Gmail)" (by decide)]
  exact ⟨rfl, rfl, rfl⟩

/-- Claim C7: avatar prompt personalization returns the fixed default
fallback prompt whenever the universe value is outside its enumerated
domain, the interest-tag list length is not exactly the required count (2),
the element value is outside its enumerated domain, the secondary
text-generation client is unavailable or its call raises, or the stripped
output of the call is shorter than the 50-character minimum; the function
is total, so no such case aborts avatar generation. -/
theorem avatar_prompt_falls_back (client : Option ClaudeOutcome)
    (univ : String) (fuels : List String) (element : String) :
    (client = none →
      generate_avatar_prompt client univ fuels element = FALLBACK_AVATAR_PROMPT) ∧
    (UNIVERSE_VISUALS.lookup univ = none →
      generate_avatar_prompt client univ fuels element = FALLBACK_AVATAR_PROMPT) ∧
    (fuels.length ≠ 2 →
      generate_avatar_prompt client univ fuels element = FALLBACK_AVATAR_PROMPT) ∧
    (ELEMENT_VISUALS.lookup element = none →
      generate_avatar_prompt client univ fuels element = FALLBACK_AVATAR_PROMPT) ∧
    ((client = some .timeout ∨ (∃ m, client = some (.apiError m)) ∨
        (∃ m, client = some (.otherError m))) →
      generate_avatar_prompt client univ fuels element = FALLBACK_AVATAR_PROMPT) ∧
    (∀ t, client = some (.ok t) → (pyStrip t).length < 50 →
      generate_avatar_prompt client univ fuels element = FALLBACK_AVATAR_PROMPT) := by
  refine ⟨?_, ?_, ?_, ?_, ?_, ?_⟩
  · rintro rfl; rfl
  · intro h
    cases client with
    | none => rfl
    | some outcome => simp [generate_avatar_prompt, h]
  · intro h
    cases client with
    | none => rfl
    | some outcome => simp [generate_avatar_prompt, h]
  · intro h
    cases client with
    | none => rfl
    | some outcome => simp [generate_avatar_prompt, h]
  · rintro (rfl | ⟨m, rfl⟩ | ⟨m, rfl⟩) <;> simp [generate_avatar_prompt]
  · rintro t rfl h
    simp [generate_avatar_prompt, h]

/-- Claim C5: plan generation returns the fixed user-facing error text with
failure status for empty or whitespace-only input and for a missing
text-generation client (with no provider call in either case), for a
provider call that raises a timeout or an error, and for provider output
whose stripped length is under 200 or that lacks the `<h3>` section-header
marker. -/
theorem vibe_plan_fixed_error_paths (client : Option ClaudeOutcome) (wishlist_app : String) :
    (pyStrip wishlist_app = "" →
      generate_vibe_plan client wishlist_app = ⟨VIBE_PLAN_ERROR_MESSAGE, false, 0⟩) ∧
    (client = none →
      generate_vibe_plan client wishlist_app = ⟨VIBE_PLAN_ERROR_MESSAGE, false, 0⟩) ∧
    (client = some .timeout →
      (generate_vibe_plan client wishlist_app).content = VIBE_PLAN_ERROR_MESSAGE ∧
      (generate_vibe_plan client wishlist_app).success = false) ∧
    (∀ m, client = some (.apiError m) →
      (generate_vibe_plan client wishlist_app).content = VIBE_PLAN_ERROR_MESSAGE ∧
      (generate_vibe_plan client wishlist_app).success = false) ∧
    (∀ m, client = some (.otherError m) →
      (generate_vibe_plan client wishlist_app).content = VIBE_PLAN_ERROR_MESSAGE ∧
      (generate_vibe_plan client wishlist_app).success = false) ∧
    (∀ t, client = some (.ok t) →
      ((pyStrip t).length < 200 ∨ pyContains (pyStrip t) "<h3>" = false) →
      (generate_vibe_plan client wishlist_app).content = VIBE_PLAN_ERROR_MESSAGE ∧
      (generate_vibe_plan client wishlist_app).success = false) := by
  refine ⟨?_, ?_, ?_, ?_, ?_, ?_⟩
  · intro h; simp [generate_vibe_plan, h]
  · rintro rfl
    by_cases h : wishlist_app = "" ∨ pyStrip wishlist_app = "" <;>
      simp [generate_vibe_plan, h]
  · rintro rfl
    by_cases h : wishlist_app = "" ∨ pyStrip wishlist_app = "" <;>
      simp [generate_vibe_plan] <;> simp_all
  · rintro m rfl
    by_cases h : wishlist_app = "" ∨ pyStrip wishlist_app = "" <;>
      simp [generate_vibe_plan] <;> simp_all
  · rintro m rfl
    by_cases h : wishlist_app = "" ∨ pyStrip wishlist_app = "" <;>
      simp [generate_vibe_plan] <;> simp_all
  · rintro t rfl hbad
    by_cases h : wishlist_app = "" ∨ pyStrip wishlist_app = ""
    · simp [generate_vibe_plan] ; simp_all
    · have hcond : ((pyStrip t).length < 200 ∨ !pyContains (pyStrip t) "<h3>") := by
        rcases hbad with hb | hb
        · exact Or.inl hb
        · exact Or.inr (by simp [hb])
      simp [generate_vibe_plan] at h ⊢
      simp [h, hcond]
      rw [if_pos hbad]
      exact ⟨rfl, rfl⟩

/-- Claim C4, part of the statement proved on both the retry loop and the
whole runner. Scenario A: two transient (allow-listed) failures then a
successful call with an image resolve the job `completed` after exactly 3
provider calls with backoff delays of 2 then 4 seconds. Scenario B: three
consecutive transient failures resolve the job `failed` after exactly 3
calls and the same delays, the last error re-raised. Scenario C: a first
failure that is not allow-listed resolves the job `failed` after exactly 1
call and no delay. -/
theorem avatar_retry_policy (env : AvatarEnv) (selfie_base64 : String)
    (preferences : Option Preferences) (e1 e2 e3 bytes data : String)
    (parts : List GeminiPart) :
    (env.gemini_api_key = true →
      env.b64decode (stripDataUri selfie_base64) = .ok bytes →
      env.gemini 0 = .err e1 → env.gemini 1 = .err e2 → env.gemini 2 = .ok parts →
      isRetryableError e1 = true → isRetryableError e2 = true →
      extractImage parts = some data → env.b64encode data ≠ "" →
      geminiGenerate env.gemini = ⟨3, [2, 4], .ok parts⟩ ∧
      (generate_avatar_async env selfie_base64 preferences).status = JobStatus.completed ∧
      (generate_avatar_async env selfie_base64 preferences).geminiCalls = 3 ∧
      (generate_avatar_async env selfie_base64 preferences).delays = [2, 4]) ∧
    (env.gemini_api_key = true →
      env.b64decode (stripDataUri selfie_base64) = .ok bytes →
      env.gemini 0 = .err e1 → env.gemini 1 = .err e2 → env.gemini 2 = .err e3 →
      isRetryableError e1 = true → isRetryableError e2 = true → isRetryableError e3 = true →
      geminiGenerate env.gemini = ⟨3, [2, 4], .error e3⟩ ∧
      (generate_avatar_async env selfie_base64 preferences).status = JobStatus.failed ∧
      (generate_avatar_async env selfie_base64 preferences).error_message = some e3 ∧
      (generate_avatar_async env selfie_base64 preferences).geminiCalls = 3 ∧
      (generate_avatar_async env selfie_base64 preferences).delays = [2, 4]) ∧
    (env.gemini_api_key = true →
      env.b64decode (stripDataUri selfie_base64) = .ok bytes →
      env.gemini 0 = .err e1 → isRetryableError e1 = false →
      geminiGenerate env.gemini = ⟨1, [], .error e1⟩ ∧
      (generate_avatar_async env selfie_base64 preferences).status = JobStatus.failed ∧
      (generate_avatar_async env selfie_base64 preferences).error_message = some e1 ∧
      (generate_avatar_async env selfie_base64 preferences).geminiCalls = 1 ∧
      (generate_avatar_async env selfie_base64 preferences).delays = []) := by
  refine ⟨?_, ?_, ?_⟩
  · intro hkey hdec hg0 hg1 hg2 hr1 hr2 hext henc
    have hloop : geminiGenerate env.gemini = ⟨3, [2, 4], .ok parts⟩ := by
      simp [geminiGenerate, MAX_RETRIES, geminiAttemptLoop, hg0, hg1, hg2, hr1, hr2,
        BASE_DELAY]
    refine ⟨hloop, ?_⟩
    simp [generate_avatar_async, generate_avatar_inner, hkey, hdec, hloop, hext, henc]
  · intro hkey hdec hg0 hg1 hg2 hr1 hr2 _hr3
    have hloop : geminiGenerate env.gemini = ⟨3, [2, 4], .error e3⟩ := by
      simp [geminiGenerate, MAX_RETRIES, geminiAttemptLoop, hg0, hg1, hg2, hr1, hr2,
        BASE_DELAY]
    refine ⟨hloop, ?_⟩
    simp [generate_avatar_async, generate_avatar_inner, hkey, hdec, hloop]
  · intro hkey hdec hg0 hr1
    have hloop : geminiGenerate env.gemini = ⟨1, [], .error e1⟩ := by
      simp [geminiGenerate, MAX_RETRIES, geminiAttemptLoop, hg0, hr1]
    refine ⟨hloop, ?_⟩
    simp [generate_avatar_async, generate_avatar_inner, hkey, hdec, hloop]

/-- Claim C9: for every environment and input, each job runner writes a
terminal row — `completed` with an output payload and a completion
timestamp, or `failed` with the stringified exception and a completion
timestamp — and unconditionally invokes the completion coordinator before
returning, in the failure case as well as the success case; neither runner
raises out of its own boundary (both are total functions of the boundary
outcomes). -/
theorem runners_terminal_write_and_coordinate (env : AvatarEnv)
    (selfie_base64 : String) (preferences : Option Preferences)
    (client : Option ClaudeOutcome) (wishlist_app : String) :
    ((generate_avatar_async env selfie_base64 preferences).status = JobStatus.completed ∧
        (generate_avatar_async env selfie_base64 preferences).image_data.isSome = true ∨
      (generate_avatar_async env selfie_base64 preferences).status = JobStatus.failed ∧
        (generate_avatar_async env selfie_base64 preferences).error_message.isSome = true) ∧
    (generate_avatar_async env selfie_base64 preferences).completed_at = true ∧
    (generate_avatar_async env selfie_base64 preferences).coordinatorCalled = true ∧
    ((generate_plan_async client wishlist_app).status = JobStatus.completed ∧
        (generate_plan_async client wishlist_app).plan_content.isSome = true ∨
      (generate_plan_async client wishlist_app).status = JobStatus.failed ∧
        (generate_plan_async client wishlist_app).error_message.isSome = true) ∧
    (generate_plan_async client wishlist_app).completed_at = true ∧
    (generate_plan_async client wishlist_app).coordinatorCalled = true := by
  refine ⟨?_, ?_, ?_, ?_, ?_, ?_⟩
  · rcases h : generate_avatar_inner env selfie_base64 preferences with ⟨res, calls, delays⟩
    cases res <;> simp [generate_avatar_async, h]
  · rcases h : generate_avatar_inner env selfie_base64 preferences with ⟨res, calls, delays⟩
    cases res <;> simp [generate_avatar_async, h]
  · rcases h : generate_avatar_inner env selfie_base64 preferences with ⟨res, calls, delays⟩
    cases res <;> simp [generate_avatar_async, h]
  · rcases h : PREGENERATED_PLANS.lookup wishlist_app with _ | v
    · rcases hs : (generate_vibe_plan client wishlist_app).success with _ | _ <;>
        simp [generate_plan_async, h, hs]
    · simp [generate_plan_async, h]
  · rcases h : PREGENERATED_PLANS.lookup wishlist_app with _ | v
    · rcases hs : (generate_vibe_plan client wishlist_app).success with _ | _ <;>
        simp [generate_plan_async, h, hs]
    · simp [generate_plan_async, h]
  · rcases h : PREGENERATED_PLANS.lookup wishlist_app with _ | v
    · rcases hs : (generate_vibe_plan client wishlist_app).success with _ | _ <;>
        simp [generate_plan_async, h, hs]
    · simp [generate_plan_async, h]

/-- Counting avatar rows through one insertion. -/
theorem get_avatar_count_cons (r : AvatarJobRow) (db : List AvatarJobRow) (k : String) :
    get_avatar_count (r :: db) k =
      get_avatar_count db k + (if r.email = k then 1 else 0) := by
  by_cases h : r.email = k <;> simp [get_avatar_count, List.filter_cons, h]

/-- Claim C8: the count of avatar rows owned by an email never exceeds
`MAX_AVATARS_PER_EMAIL` (3): a submission step preserves the ceiling for
every email, and a submission whose normalized email already owns 3 rows —
whatever their statuses — inserts no new row because the quota is checked
before the pending row is inserted. -/
theorem avatar_quota_never_exceeded (db : List AvatarJobRow) (new_id : String)
    (response_id : Nat) (raw_email selfie_data : String) (k : String)
    (h : get_avatar_count db k ≤ MAX_AVATARS_PER_EMAIL) :
    get_avatar_count (submitAvatarStep db new_id response_id raw_email selfie_data).db k ≤
        MAX_AVATARS_PER_EMAIL ∧
      (get_avatar_count db (normalizeEmail raw_email) = MAX_AVATARS_PER_EMAIL →
        (submitAvatarStep db new_id response_id raw_email selfie_data).db = db ∧
        (submitAvatarStep db new_id response_id raw_email selfie_data).avatar_queued = false) := by
  unfold submitAvatarStep
  by_cases hform : normalizeEmail raw_email ≠ "" ∧ selfie_data ≠ ""
  · rw [if_pos (by simp [hform.1, hform.2])]
    by_cases hq : get_avatar_count db (normalizeEmail raw_email) < MAX_AVATARS_PER_EMAIL
    · rw [if_pos hq]
      constructor
      · rw [get_avatar_count_cons]
        by_cases hk : normalizeEmail raw_email = k
        · subst hk
          simp only [if_pos rfl, reduceIte]
          omega
        · simp [hk, h]
      · intro hfull
        omega
    · rw [if_neg hq]
      exact ⟨h, fun _ => ⟨rfl, rfl⟩⟩
  · rw [if_neg (by simpa [Decidable.not_and_iff_or_not] using hform)]
    exact ⟨h, fun _ => ⟨rfl, rfl⟩⟩

/-- Witness for C8: an email already owning 3 rows (one pending, one
failed, one completed) gets no 4th row for a new submission with a
selfie. -/
theorem avatar_quota_never_exceeded_witness :
    (submitAvatarStep
        [⟨"i1", "a@x.com", 1, .pending⟩, ⟨"i2", "a@x.com", 2, .failed⟩,
          ⟨"i3", "a@x.com", 3, .completed⟩] "i4" 4 "A@X.com " "selfie").db =
      [⟨"i1", "a@x.com", 1, .pending⟩, ⟨"i2", "a@x.com", 2, .failed⟩,
        ⟨"i3", "a@x.com", 3, .completed⟩] ∧
    (submitAvatarStep
        [⟨"i1", "a@x.com", 1, .pending⟩, ⟨"i2", "a@x.com", 2, .failed⟩,
          ⟨"i3", "a@x.com", 3, .completed⟩] "i4" 4 "A@X.com " "selfie").avatar_queued =
      false :=
  (avatar_quota_never_exceeded
    [⟨"i1", "a@x.com", 1, .pending⟩, ⟨"i2", "a@x.com", 2, .failed⟩,
      ⟨"i3", "a@x.com", 3, .completed⟩] "i4" 4 "A@X.com " "selfie" "a@x.com"
    (by decide)).2 (by decide)

/-- Claim C10: both the submission handler and the quota-check endpoint
lowercase and strip the email before any quota counting, row creation or
storage, so submission behaviour and quota counting are keyed by the
normalized email: two raw emails with the same normalization behave
identically, and a row created for one counts against the other's quota. -/
theorem email_normalized_for_quota (e1 e2 : String)
    (h : normalizeEmail e1 = normalizeEmail e2)
    (db : List AvatarJobRow) (new_id : String) (response_id : Nat)
    (selfie_data : String) :
    submitAvatarStep db new_id response_id e1 selfie_data =
        submitAvatarStep db new_id response_id e2 selfie_data ∧
      check_email db e1 = check_email db e2 ∧
      get_avatar_count (submitAvatarStep db new_id response_id e1 selfie_data).db
          (normalizeEmail e2) =
        get_avatar_count db (normalizeEmail e2) +
          (if (submitAvatarStep db new_id response_id e1 selfie_data).avatar_queued
            then 1 else 0) := by
  refine ⟨by simp only [submitAvatarStep, h], by simp only [check_email, h], ?_⟩
  unfold submitAvatarStep
  by_cases hform : normalizeEmail e1 ≠ "" ∧ selfie_data ≠ ""
  · rw [if_pos (by simp [hform.1, hform.2])]
    by_cases hq : get_avatar_count db (normalizeEmail e1) < MAX_AVATARS_PER_EMAIL
    · rw [if_pos hq]
      simp [get_avatar_count_cons, h]
    · rw [if_neg hq]
      simp
  · rw [if_neg (by simpa [Decidable.not_and_iff_or_not] using hform)]
    simp

/-- Witness for C10: a raw email with leading whitespace and upper case
behaves exactly like its normalized form. -/
theorem email_normalized_for_quota_witness :
    submitAvatarStep [] "i1" 1 " A@X.com" "s" = submitAvatarStep [] "i1" 1 "a@x.com" "s" ∧
      check_email [] " A@X.com" = check_email [] "a@x.com" ∧
      get_avatar_count (submitAvatarStep [] "i1" 1 " A@X.com" "s").db
          (normalizeEmail "a@x.com") =
        get_avatar_count [] (normalizeEmail "a@x.com") +
          (if (submitAvatarStep [] "i1" 1 " A@X.com" "s").avatar_queued then 1 else 0) :=
  email_normalized_for_quota " A@X.com" "a@x.com" (by decide) [] "i1" 1 "s"

/-- Claim C3: for rows in the states the runners can leave them in (not
`pending`; a non-empty row id, ids being store-assigned UUID strings; a
completed plan row carrying non-empty content), a single coordinator
invocation calls the notifier exactly once with exactly the outputs of the
completed rows — the avatar pair populated iff the avatar row exists and is
completed, the plan content populated iff the plan row exists and is
completed — and does not call the notifier at all when no existing row is
completed. -/
theorem coordinator_sends_exactly_completed_outputs (email : String)
    (avatar : Option AvatarRow) (plan : Option PlanRow)
    (hnap : ∀ a, avatar = some a → a.status ≠ JobStatus.pending)
    (hnpp : ∀ p, plan = some p → p.status ≠ JobStatus.pending)
    (hid : ∀ a, avatar = some a → a.id ≠ "")
    (hpc : ∀ p, plan = some p → p.status = JobStatus.completed →
      ∃ s, p.plan_content = some s ∧ s ≠ "") :
    ((∃ a, avatar = some a ∧ a.status = JobStatus.completed) ∨
        (∃ p, plan = some p ∧ p.status = JobStatus.completed) →
      ∃ call, check_and_send_email email avatar plan = some call ∧
        call.email = email ∧
        (∀ a, avatar = some a → a.status = JobStatus.completed →
          call.avatar_id = some a.id ∧ call.avatar_data = a.image_data) ∧
        ((avatar = none ∨ ∃ a, avatar = some a ∧ a.status = JobStatus.failed) →
          call.avatar_id = none ∧ call.avatar_data = none) ∧
        (∀ p, plan = some p → p.status = JobStatus.completed →
          call.plan_content = p.plan_content) ∧
        ((plan = none ∨ ∃ p, plan = some p ∧ p.status = JobStatus.failed) →
          call.plan_content = none)) ∧
    (¬((∃ a, avatar = some a ∧ a.status = JobStatus.completed) ∨
        (∃ p, plan = some p ∧ p.status = JobStatus.completed)) →
      check_and_send_email email avatar plan = none) := by
  have statOf : ∀ s : JobStatus, s ≠ JobStatus.pending →
      s = JobStatus.completed ∨ s = JobStatus.failed := by
    intro s hs
    cases s with
    | pending => exact absurd rfl hs
    | completed => exact Or.inl rfl
    | failed => exact Or.inr rfl
  rcases avatar with _ | a
  · rcases plan with _ | p
    · refine ⟨?_, fun _ => by simp [check_and_send_email, pyTruthyOpt]⟩
      rintro (⟨a, ha, _⟩ | ⟨p, hp, _⟩) <;> simp_all
    · rcases statOf p.status (hnpp p rfl) with hps | hps
      · obtain ⟨s, hs, hsne⟩ := hpc p rfl hps
        refine ⟨fun _ => ?_, fun hno => ?_⟩
        · refine ⟨⟨email, none, none, p.plan_content⟩, ?_, rfl, ?_, ?_, ?_, ?_⟩
          · simp [check_and_send_email, hps, hs, pyTruthyOpt, hsne]
          · rintro a ⟨⟩
          · exact fun _ => ⟨rfl, rfl⟩
          · rintro q hq _; cases hq; rfl
          · rintro (h | ⟨q, hq, hqs⟩) <;> first | exact Option.noConfusion h | (cases hq; simp_all)
        · exact absurd (Or.inr ⟨p, rfl, hps⟩) hno
      · refine ⟨fun hyes => ?_, fun _ => ?_⟩
        · rcases hyes with ⟨a, ha, _⟩ | ⟨q, hq, hqs⟩
          · cases ha
          · cases hq; simp_all
        · simp [check_and_send_email, hps, pyTruthyOpt]
  · rcases statOf a.status (hnap a rfl) with has | has
    · have hane := hid a rfl
      refine ⟨fun _ => ?_, fun hno => absurd (Or.inl ⟨a, rfl, has⟩) hno⟩
      rcases plan with _ | p
      · refine ⟨⟨email, some a.id, a.image_data, none⟩, ?_, rfl, ?_, ?_, ?_, ?_⟩
        · simp [check_and_send_email, has, pyTruthyOpt, hane]
        · rintro b hb _; cases hb; exact ⟨rfl, rfl⟩
        · rintro (h | ⟨b, hb, hbs⟩) <;> first | exact Option.noConfusion h | (cases hb; simp_all)
        · rintro p ⟨⟩
        · exact fun _ => rfl
      · rcases statOf p.status (hnpp p rfl) with hps | hps
        · refine ⟨⟨email, some a.id, a.image_data, p.plan_content⟩, ?_, rfl, ?_, ?_, ?_, ?_⟩
          · simp [check_and_send_email, has, hps, pyTruthyOpt, hane]
          · rintro b hb _; cases hb; exact ⟨rfl, rfl⟩
          · rintro (h | ⟨b, hb, hbs⟩) <;> first | exact Option.noConfusion h | (cases hb; simp_all)
          · rintro q hq _; cases hq; rfl
          · rintro (h | ⟨q, hq, hqs⟩) <;> first | exact Option.noConfusion h | (cases hq; simp_all)
        · refine ⟨⟨email, some a.id, a.image_data, none⟩, ?_, rfl, ?_, ?_, ?_, ?_⟩
          · simp [check_and_send_email, has, hps, pyTruthyOpt, hane]
          · rintro b hb _; cases hb; exact ⟨rfl, rfl⟩
          · rintro (h | ⟨b, hb, hbs⟩) <;> first | exact Option.noConfusion h | (cases hb; simp_all)
          · rintro q hq hqs; cases hq; simp_all
          · exact fun _ => rfl
    · rcases plan with _ | p
      · refine ⟨fun hyes => ?_, fun _ => ?_⟩
        · rcases hyes with ⟨b, hb, hbs⟩ | ⟨q, hq, _⟩
          · cases hb; simp_all
          · cases hq
        · simp [check_and_send_email, has, pyTruthyOpt]
      · rcases statOf p.status (hnpp p rfl) with hps | hps
        · obtain ⟨s, hs, hsne⟩ := hpc p rfl hps
          refine ⟨fun _ => ?_, fun hno => absurd (Or.inr ⟨p, rfl, hps⟩) hno⟩
          refine ⟨⟨email, none, none, p.plan_content⟩, ?_, rfl, ?_, ?_, ?_, ?_⟩
          · simp [check_and_send_email, has, hps, hs, pyTruthyOpt, hsne]
          · rintro b hb hbs; cases hb; simp_all
          · exact fun _ => ⟨rfl, rfl⟩
          · rintro q hq _; cases hq; rfl
          · rintro (h | ⟨q, hq, hqs⟩) <;> first | exact Option.noConfusion h | (cases hq; simp_all)
        · refine ⟨fun hyes => ?_, fun _ => ?_⟩
          · rcases hyes with ⟨b, hb, hbs⟩ | ⟨q, hq, hqs⟩
            · cases hb; simp_all
            · cases hq; simp_all
          · simp [check_and_send_email, has, hps, pyTruthyOpt]

/-- Witness for C3: a completed avatar row next to a failed plan row yields
one email carrying exactly the avatar output and no plan content. -/
theorem coordinator_sends_exactly_completed_outputs_witness :
    ∃ call,
      check_and_send_email "a@x.com" (some ⟨"a1", JobStatus.completed, some "img"⟩)
          (some ⟨"p1", JobStatus.failed, none⟩) = some call ∧
        call.avatar_id = some "a1" ∧ call.avatar_data = some "img" ∧
        call.plan_content = none := by
  obtain ⟨call, hcall, -, hav, -, -, hpl⟩ :=
    (coordinator_sends_exactly_completed_outputs "a@x.com"
      (some ⟨"a1", JobStatus.completed, some "img"⟩) (some ⟨"p1", JobStatus.failed, none⟩)
      (by rintro a ⟨⟩; simp) (by rintro p ⟨⟩; simp)
      (by rintro a ⟨⟩; simp) (by rintro p ⟨⟩ h; cases h)).1
      (Or.inl ⟨_, rfl, rfl⟩)
  obtain ⟨h1, h2⟩ := hav _ rfl rfl
  exact ⟨call, hcall, h1, h2, hpl (Or.inr ⟨_, rfl, rfl⟩)⟩

/-- Whether an action is a coordinator invocation. -/
def isCoordinate : RunnerAct → Bool
  | .coordinate => true
  | _ => false

/-- One step raises the email count by at most one, and only on a
coordinator invocation. -/
theorem coordStep_emailsSent_le (email : String) (w : CoordWorld) (a : RunnerAct) :
    (coordStep email w a).emailsSent ≤
      w.emailsSent + (if isCoordinate a then 1 else 0) := by
  cases a with
  | writeAvatar r => simp [coordStep, isCoordinate]
  | writePlan r => simp [coordStep, isCoordinate]
  | coordinate =>
    simp only [coordStep, isCoordinate, if_pos]
    rcases h : check_and_send_email email (some w.avatar) (some w.plan) with _ | c <;> simp

/-- Along any trace, the email count grows by at most the number of
coordinator invocations in the trace. -/
theorem runTrace_emailsSent_le (email : String) :
    ∀ (t : List RunnerAct) (w : CoordWorld),
      (runTrace email w t).emailsSent ≤
        w.emailsSent + (t.filter isCoordinate).length := by
  intro t
  induction t with
  | nil => intro w; simp [runTrace]
  | cons a rest ih =>
    intro w
    have h1 := coordStep_emailsSent_le email w a
    have h2 := ih (coordStep email w a)
    cases ha : isCoordinate a <;>
      rw [ha] at h1 <;> simp at h1 <;>
      simp only [runTrace, List.filter_cons, ha] <;> simp <;> omega

/-- Counterexample to claim C1 as stated: in the interleaving where both
runners write their terminal rows before either coordinator invocation
reads, both invocations observe no pending row and both send, so the
notifier is called twice for the one response — the duplicate-email race. -/
theorem coordinator_race_duplicate_email :
    [RunnerAct.writeAvatar ⟨"a1", JobStatus.completed, some "img"⟩,
        RunnerAct.writePlan ⟨"p1", JobStatus.completed, some "<h3>Plan</h3>"⟩,
        RunnerAct.coordinate, RunnerAct.coordinate] ∈
      interleavings (avatarThread ⟨"a1", JobStatus.completed, some "img"⟩)
        (planThread ⟨"p1", JobStatus.completed, some "<h3>Plan</h3>"⟩) ∧
    (runTrace "a@x.com" (initWorld "a1" "p1")
        [RunnerAct.writeAvatar ⟨"a1", JobStatus.completed, some "img"⟩,
          RunnerAct.writePlan ⟨"p1", JobStatus.completed, some "<h3>Plan</h3>"⟩,
          RunnerAct.coordinate, RunnerAct.coordinate]).emailsSent = 2 := by
  decide

/-- Claim C1 as amended: each coordinator invocation sends at most one
email, so across every interleaving of the two runner threads the notifier
is called at most twice for a response; at-most-once does not hold for all
interleavings (see the counterexample), only the per-invocation bound
does. -/
theorem coordinator_at_most_two_emails (email avatar_id plan_id : String)
    (rA : AvatarRow) (rP : PlanRow) (t : List RunnerAct)
    (ht : t ∈ interleavings (avatarThread rA) (planThread rP)) :
    (runTrace email (initWorld avatar_id plan_id) t).emailsSent ≤ 2 := by
  have hle := runTrace_emailsSent_le email t (initWorld avatar_id plan_id)
  simp only [avatarThread, planThread, interleavings, interleavingsAux,
    List.length_cons, List.length_nil, List.map, List.mem_cons, List.mem_singleton,
    List.cons_append, List.nil_append, List.not_mem_nil, or_false] at ht
  rcases ht with rfl | rfl | rfl | rfl | rfl | rfl <;>
    simp only [isCoordinate, initWorld, List.filter, List.length_cons,
      List.length_nil] at hle ⊢ <;> omega

/-- Witness for the amended C1: the serialized interleaving — the avatar
thread finishes entirely before the plan thread acts — stays within the
bound (there it in fact sends exactly once). -/
theorem coordinator_at_most_two_emails_witness :
    (runTrace "a@x.com" (initWorld "a1" "p1")
        [RunnerAct.writeAvatar ⟨"a1", JobStatus.completed, some "img"⟩,
          RunnerAct.coordinate,
          RunnerAct.writePlan ⟨"p1", JobStatus.completed, some "<h3>Plan</h3>"⟩,
          RunnerAct.coordinate]).emailsSent ≤ 2 :=
  coordinator_at_most_two_emails "a@x.com" "a1" "p1"
    ⟨"a1", JobStatus.completed, some "img"⟩ ⟨"p1", JobStatus.completed, some "<h3>Plan</h3>"⟩
    _ (by decide)

/-- Helper: a lookup in a table all of whose values are non-empty returns a
non-empty value. -/
theorem lookup_value_nonempty :
    ∀ (l : List (String × String)), l.all (fun kv => !(kv.2 = "")) = true →
      ∀ (k v : String), l.lookup k = some v → v ≠ "" := by
  intro l
  induction l with
  | nil => intro _ k v h; cases h
  | cons kv rest ih =>
    intro hall k v h
    rw [List.all_cons] at hall
    obtain ⟨h1, h2⟩ := Bool.and_eq_true_iff.mp hall
    cases kv with
    | mk k1 v1 =>
      by_cases hk : k == k1
      · simp only [List.lookup, hk, if_true, Option.some.injEq] at h
        subst h
        simpa using h1
      · simp only [List.lookup, hk, if_false, Bool.false_eq_true] at h
        exact ih h2 k v h

/-- Helper: a successful `generate_vibe_plan` never produces empty content —
its output passed the 200-character minimum. -/
theorem generate_vibe_plan_success_content_nonempty (client : Option ClaudeOutcome)
    (wishlist_app : String)
    (h : (generate_vibe_plan client wishlist_app).success = true) :
    (generate_vibe_plan client wishlist_app).content ≠ "" := by
  by_cases h0 : wishlist_app = "" ∨ pyStrip wishlist_app = ""
  · simp [generate_vibe_plan, h0] at h
  · rcases client with _ | outcome
    · simp [generate_vibe_plan, h0] at h
    · rcases outcome with _ | m | m | t
      · simp [generate_vibe_plan, h0] at h
      · simp [generate_vibe_plan, h0] at h
      · simp [generate_vibe_plan, h0] at h
      · by_cases hcond : (pyStrip t).length < 200 ∨ pyContains (pyStrip t) "<h3>" = false
        · simp [generate_vibe_plan, h0] at h
          rw [if_pos hcond] at h
          simp at h
        · simp [generate_vibe_plan, h0] at h ⊢
          rw [if_neg hcond] at h ⊢
          push_neg at hcond
          intro heq
          have h200 := hcond.1
          change pyStrip t = "" at heq
          rw [heq] at h200
          simp [String.length] at h200

/-- Every completed plan row the plan runner writes carries non-empty
content: canned plans are all non-empty and generated plans pass the
200-character minimum. Together with the store assigning non-empty UUID
ids, this discharges the reachable-state hypotheses of the C3 theorem. -/
theorem plan_runner_completed_content_nonempty (client : Option ClaudeOutcome)
    (wishlist_app : String)
    (h : (generate_plan_async client wishlist_app).status = JobStatus.completed) :
    ∃ s, (generate_plan_async client wishlist_app).plan_content = some s ∧ s ≠ "" := by
  rcases hl : PREGENERATED_PLANS.lookup wishlist_app with _ | v
  · rcases hs : (generate_vibe_plan client wishlist_app).success with _ | _
    · exfalso
      simp [generate_plan_async, hl, hs] at h
    · exact ⟨(generate_vibe_plan client wishlist_app).content,
        by simp [generate_plan_async, hl, hs],
        generate_vibe_plan_success_content_nonempty client wishlist_app hs⟩
  · exact ⟨v, by simp [generate_plan_async, hl],
      lookup_value_nonempty PREGENERATED_PLANS (by decide) wishlist_app v hl⟩
